import Mathlib

/-!
Verification development for the heuristic quality-scoring engine of the
Liqour_1.1 repository (files `industrial_ux_validator.py` and
`validate_dart.py` under `Flutter_App/`).  The Python code is shallowly
embedded: file contents are lists of characters, the corpus is the list of
scanned file records, and every scoring / linting routine becomes a pure
Lean function mirroring the source line by line.
-/

namespace UXV

/-- A file content or name, modelled as its list of characters. -/
abbrev Chars := List Char

/-- Python default whitespace characters (the ASCII ones, which is what the
analyzed Dart/YAML sources contain). -/
def isSpaceCh (c : Char) : Bool :=
  c = ' ' || c = '\t' || c = '\n' || c = '\r' || c = '\x0b' || c = '\x0c'

/-- Regex word character, ASCII range of Python re `\w`. -/
def isWordCh (c : Char) : Bool := c.isAlphanum || c = '_'

/-- Python `str.strip()`. -/
def strip (cs : Chars) : Chars :=
  ((cs.dropWhile isSpaceCh).reverse.dropWhile isSpaceCh).reverse

/-- Python `s.startswith(p)`. -/
def startsWith (p cs : Chars) : Bool := p.isPrefixOf cs

/-- Python `s.endswith(p)`. -/
def endsWith (p cs : Chars) : Bool := p.reverse.isPrefixOf cs.reverse

/-- Python `p in s` (substring containment, for non-empty `p`). -/
def containsSub (p : Chars) : Chars → Bool
  | [] => p.isEmpty
  | c :: cs => p.isPrefixOf (c :: cs) || containsSub p cs

/-- Python `s.count(c)` for a single character. -/
def countCh (c : Char) (cs : Chars) : Nat := cs.countP (fun d => d = c)

/-- Python `s.lower()` (ASCII). -/
def lower (cs : Chars) : Chars := cs.map Char.toLower

/-- Python `s.split(chr(10))`: split content into lines. -/
def splitLines : Chars → List Chars
  | [] => [[]]
  | c :: cs =>
    if c = '\n' then [] :: splitLines cs
    else
      match splitLines cs with
      | l :: ls => (c :: l) :: ls
      | [] => [[c]]

/-- `fnmatch`-style glob matching for patterns made of literals and `*`,
the semantics `Path.rglob` applies to the final name component. -/
def globMatchFuel : Nat → Chars → Chars → Bool
  | 0, _, _ => false
  | _ + 1, [], [] => true
  | _ + 1, [], _ :: _ => false
  | k + 1, '*' :: ps, [] => globMatchFuel k ps []
  | k + 1, '*' :: ps, c :: cs =>
    globMatchFuel k ps (c :: cs) || globMatchFuel k ('*' :: ps) cs
  | k + 1, p :: ps, c :: cs => p = c && globMatchFuel k ps cs
  | _ + 1, _ :: _, [] => false

/-- `fnmatch`-style glob matching for patterns made of literals and `*`,
the semantics `Path.rglob` applies to the final name component.  Every
recursive call of the matcher shrinks the combined length of pattern and
name, so the supplied fuel is always sufficient. -/
def globMatch (p n : Chars) : Bool :=
  globMatchFuel (p.length + n.length + 1) p n

/-- Tail test of the regex `\s*=\s*[^;\x7b]+$` starting right after the
matched `=`: the rest of the line must be non-empty and contain neither a
semicolon nor an opening brace (spaces themselves satisfy `[^;\x7b]`). -/
def assignRestOk (cs : Chars) : Bool :=
  !cs.isEmpty && cs.all (fun c => c ≠ ';' && c ≠ '\x7b')

/-- After the `\w+` part: consume `\s*` then require `=` and a valid tail. -/
def assignSpacesEq : Chars → Bool
  | [] => false
  | c :: cs =>
    if c = '=' then assignRestOk cs
    else if isSpaceCh c then assignSpacesEq cs
    else false

/-- Having consumed at least one word character, extend the `\w+` run and
then hand over to `\s*=`. -/
def assignAfterWord : Chars → Bool
  | [] => false
  | c :: cs =>
    if isWordCh c then assignAfterWord cs
    else assignSpacesEq (c :: cs)

/-- Python `re.search` of `\w+\s*=\s*[^;\x7b]+$` over a line. -/
def searchAssign : Chars → Bool
  | [] => false
  | c :: cs => (isWordCh c && assignAfterWord cs) || searchAssign cs

/-- Character class `[\w/:.]` of the import-format regex. -/
def isImportPathCh (c : Char) : Bool :=
  isWordCh c || c = '/' || c = ':' || c = '.'

/-- A quote character, the class matching a single or double quote. -/
def isQuoteCh (c : Char) : Bool := c = '\x27' || c = '"'

/-- Python `re.match` of the import-format pattern: literal `import`, one or
more spaces, a quote, one or more `[\w/:.]` characters, a quote.  The
optional trailing semicolon and any text after the match are irrelevant to
`re.match` success. -/
def importFormatOk (cs : Chars) : Bool :=
  if startsWith ("import".toList) cs then
    let rest := cs.drop 6
    let sp := rest.takeWhile isSpaceCh
    if sp.isEmpty then false
    else
      match rest.drop sp.length with
      | [] => false
      | q :: rest2 =>
        isQuoteCh q &&
          (let body := rest2.takeWhile isImportPathCh
           !body.isEmpty &&
             (match rest2.drop body.length with
              | q2 :: _ => isQuoteCh q2
              | [] => false))
  else false

/-- Worker for `findClasses`: the first argument is the number of still to
be skipped characters of the match found one position earlier, which is how
"resume scanning after the end of the previous match" is realised with a
structurally recursive scan. -/
def findClassesAux : Nat → Chars → List Chars
  | k + 1, _ :: cs => findClassesAux k cs
  | _, [] => []
  | 0, c :: cs =>
    if startsWith ("class".toList) (c :: cs) then
      let rest := (c :: cs).drop 5
      let sp := rest.takeWhile isSpaceCh
      if sp.isEmpty then findClassesAux 0 cs
      else
        let rest2 := rest.drop sp.length
        let w := rest2.takeWhile isWordCh
        if w.isEmpty then findClassesAux 0 cs
        else w :: findClassesAux (5 + sp.length + w.length - 1) cs
    else findClassesAux 0 cs

/-- Python `re.findall` of `class\s+(\w+)`: scan left to right, on a match
capture the maximal word run and resume after it, otherwise advance one
character. -/
def findClasses (cs : Chars) : List Chars := findClassesAux 0 cs

/-- Worker for `camelSub`: the first argument counts characters that were
already emitted as part of the previous replacement and must only be
skipped, realising "resume after the match" structurally. -/
def camelSubAux : Nat → Chars → Chars
  | k + 1, _ :: cs => camelSubAux k cs
  | _, [] => []
  | 0, [c] => [c]
  | 0, c1 :: c2 :: rest =>
    if 'A' ≤ c2 && c2 ≤ 'Z' then
      let lows := rest.takeWhile (fun c => 'a' ≤ c && c ≤ 'z')
      if lows.isEmpty then c1 :: camelSubAux 0 (c2 :: rest)
      else c1 :: '_' :: c2 :: (lows ++ camelSubAux lows.length rest)
    else c1 :: camelSubAux 0 (c2 :: rest)

/-- Python `re.sub` for the pattern "any character, then an upper case
letter followed by one or more lower case letters", replacing each
non-overlapping match by group one, an underscore, group two, and resuming
after the match. -/
def camelSub (cs : Chars) : Chars := camelSubAux 0 cs

/-- `DartValidator._camel_to_snake`. -/
def camelToSnake (name : Chars) : Chars := lower (camelSub name)

/-- `pathlib.Path.stem`: the final name without its suffix; a name whose
only dot is leading or trailing keeps the full name. -/
def stem (name : Chars) : Chars :=
  let r := name.reverse
  let ext := r.takeWhile (fun c => c ≠ '.')
  if ext.length = r.length then name
  else if ext.isEmpty then name
  else
    let rest := r.drop (ext.length + 1)
    if rest.isEmpty then name else rest.reverse

/-- One attempted match of the colour-literal regex at the head of the
list: literal `Color(0x`, exactly eight hex digits, and a closing paren. -/
def colorMatchAt (cs : Chars) : Bool :=
  startsWith ("Color(0x".toList) cs &&
    (let d := cs.drop 8
     decide (8 ≤ d.length) && (d.take 8).all (fun c => c.isDigit || ('A' ≤ c && c ≤ 'F') || ('a' ≤ c && c ≤ 'f')) &&
       (match d.drop 8 with
        | ')' :: _ => true
        | _ => false))

/-- Worker for `countColor` with a skip counter for the remaining length of
the match found one position earlier. -/
def countColorAux : Nat → Chars → Nat
  | k + 1, _ :: cs => countColorAux k cs
  | _, [] => 0
  | 0, c :: cs =>
    if colorMatchAt (c :: cs) then 1 + countColorAux 16 cs
    else countColorAux 0 cs

/-- Python `len(re.findall(colorPattern, content))`: count non-overlapping
matches left to right, resuming after each 17-character match. -/
def countColor (cs : Chars) : Nat := countColorAux 0 cs

/-! ## The corpus model

A scanned file is its final name component, its content and a readability
flag; a corpus is the list of scanned files of one run.  Opening a file
whose flag is `false` raises, which both validators catch. -/

structure FileRec where
  name : Chars
  content : Chars
  readable : Bool
deriving DecidableEq, Repr

abbrev Corpus := List FileRec

/-- `self.project_root.rglob(pat)` restricted to the scanned corpus. -/
def rglob (pat : String) (c : Corpus) : Corpus :=
  c.filter (fun f => globMatch pat.toList f.name)

/-- The `*.dart` files of the corpus, the iteration set of every content
scan loop of `IndustrialUXValidator`. -/
def dartsOf (c : Corpus) : Corpus := rglob "*.dart" c

/-- A content scan loop over the Dart files: the flag ends up `true` iff
some Dart file opens successfully and its content satisfies the check;
unreadable files are skipped by the `except: continue` arm. -/
def anyDart (c : Corpus) (p : Chars → Bool) : Bool :=
  (dartsOf c).any (fun f => f.readable && p f.content)

/-! ## Category check records

One structure per category, fields in the declaration order of the Python
dict literals; `count` is `sum(checks.values())`. -/

structure MaterialChecks where
  theme_implementation : Bool
  component_usage : Bool
  color_system : Bool
  typography : Bool
  elevation_shadows : Bool
deriving DecidableEq, Repr

def MaterialChecks.count (m : MaterialChecks) : Nat :=
  m.theme_implementation.toNat + m.component_usage.toNat + m.color_system.toNat +
    m.typography.toNat + m.elevation_shadows.toNat

structure AccessibilityChecks where
  semantic_labels : Bool
  focus_management : Bool
  color_contrast : Bool
  text_scaling : Bool
  screen_reader_support : Bool
deriving DecidableEq, Repr

def AccessibilityChecks.count (a : AccessibilityChecks) : Nat :=
  a.semantic_labels.toNat + a.focus_management.toNat + a.color_contrast.toNat +
    a.text_scaling.toNat + a.screen_reader_support.toNat

structure PerformanceChecks where
  image_caching : Bool
  lazy_loading : Bool
  performance_monitoring : Bool
  memory_optimization : Bool
  smooth_animations : Bool
deriving DecidableEq, Repr

def PerformanceChecks.count (p : PerformanceChecks) : Nat :=
  p.image_caching.toNat + p.lazy_loading.toNat + p.performance_monitoring.toNat +
    p.memory_optimization.toNat + p.smooth_animations.toNat

structure AnimationChecks where
  micro_interactions : Bool
  page_transitions : Bool
  loading_animations : Bool
  gesture_animations : Bool
  hero_animations : Bool
deriving DecidableEq, Repr

def AnimationChecks.count (a : AnimationChecks) : Nat :=
  a.micro_interactions.toNat + a.page_transitions.toNat + a.loading_animations.toNat +
    a.gesture_animations.toNat + a.hero_animations.toNat

structure ThemingChecks where
  dark_light_theme : Bool
  consistent_colors : Bool
  custom_fonts : Bool
  theme_switching : Bool
  brand_consistency : Bool
deriving DecidableEq, Repr

def ThemingChecks.count (t : ThemingChecks) : Nat :=
  t.dark_light_theme.toNat + t.consistent_colors.toNat + t.custom_fonts.toNat +
    t.theme_switching.toNat + t.brand_consistency.toNat

structure ResponsiveChecks where
  screen_size_adaptation : Bool
  orientation_handling : Bool
  safe_area_usage : Bool
  flexible_layouts : Bool
  breakpoint_handling : Bool
deriving DecidableEq, Repr

def ResponsiveChecks.count (r : ResponsiveChecks) : Nat :=
  r.screen_size_adaptation.toNat + r.orientation_handling.toNat + r.safe_area_usage.toNat +
    r.flexible_layouts.toNat + r.breakpoint_handling.toNat

structure FlowChecks where
  onboarding_flow : Bool
  authentication_flow : Bool
  error_handling_flow : Bool
  navigation_flow : Bool
  feedback_flow : Bool
deriving DecidableEq, Repr

def FlowChecks.count (f : FlowChecks) : Nat :=
  f.onboarding_flow.toNat + f.authentication_flow.toNat + f.error_handling_flow.toNat +
    f.navigation_flow.toNat + f.feedback_flow.toNat

/-! ## Rule evaluation, one function per `_validate_*` method -/

/-- `IndustrialUXValidator._validate_material_design`. -/
def evalMaterial (c : Corpus) : MaterialChecks where
  theme_implementation := !(rglob "*theme*.dart" c).isEmpty
  component_usage := decide (3 ≤ (rglob "premium_*.dart" c).length)
  color_system := !(rglob "*color*.dart" c).isEmpty
  typography := !(rglob "*typography*.dart" c).isEmpty
  elevation_shadows :=
    anyDart c (fun ct => containsSub "elevation:".toList ct || containsSub "boxShadow".toList ct)

/-- `IndustrialUXValidator._validate_accessibility`. -/
def evalAccessibility (c : Corpus) : AccessibilityChecks where
  semantic_labels :=
    anyDart c (fun ct => containsSub "semanticsLabel".toList ct || containsSub "Semantics(".toList ct)
  focus_management :=
    anyDart c (fun ct => containsSub "FocusNode".toList ct || containsSub "focus:".toList ct)
  color_contrast :=
    (rglob "*theme*.dart" c).any (fun f =>
      f.readable && (containsSub "ThemeData.dark".toList f.content ||
        containsSub "brightness: Brightness.dark".toList f.content))
  text_scaling :=
    anyDart c (fun ct => containsSub "textScaleFactor".toList ct || containsSub "MediaQuery".toList ct)
  screen_reader_support :=
    anyDart c (fun ct => containsSub "ExcludeSemantics".toList ct || containsSub "MergeSemantics".toList ct)

/-- `IndustrialUXValidator._validate_performance_ux`. -/
def evalPerformance (c : Corpus) : PerformanceChecks where
  image_caching := !(rglob "*cache*.dart" c).isEmpty
  lazy_loading :=
    anyDart c (fun ct => containsSub "FutureBuilder".toList ct || containsSub "StreamBuilder".toList ct)
  performance_monitoring := !(rglob "*performance*.dart" c).isEmpty
  memory_optimization :=
    anyDart c (fun ct => containsSub "dispose()".toList ct && containsSub "initState()".toList ct)
  smooth_animations :=
    anyDart c (fun ct => containsSub "AnimationController".toList ct || containsSub "Tween".toList ct)

/-- `IndustrialUXValidator._validate_animations`. -/
def evalAnimations (c : Corpus) : AnimationChecks where
  micro_interactions :=
    anyDart c (fun ct => containsSub "onTap".toList ct &&
      (containsSub "Animation".toList ct || containsSub "scale".toList ct))
  page_transitions :=
    anyDart c (fun ct => containsSub "PageRouteBuilder".toList ct ||
      containsSub "SlideTransition".toList ct)
  loading_animations :=
    anyDart c (fun ct => containsSub "CircularProgressIndicator".toList ct ||
      containsSub "LinearProgressIndicator".toList ct)
  gesture_animations :=
    anyDart c (fun ct => containsSub "GestureDetector".toList ct &&
      containsSub "Animation".toList ct)
  hero_animations := anyDart c (fun ct => containsSub "Hero(".toList ct)

/-- `IndustrialUXValidator._validate_theming`.  The `pubspec.yaml` lookup
is an existence test at the project root followed by a guarded read. -/
def evalTheming (c : Corpus) : ThemingChecks where
  dark_light_theme :=
    anyDart c (fun ct => containsSub "ThemeData.dark".toList ct || containsSub "brightness:".toList ct)
  consistent_colors := anyDart c (fun ct => containsSub "Theme.of(context)".toList ct)
  custom_fonts :=
    match c.find? (fun f => f.name = "pubspec.yaml".toList) with
    | some f => f.readable && containsSub "fonts:".toList f.content
    | none => false
  theme_switching :=
    anyDart c (fun ct => containsSub "ThemeMode".toList ct || containsSub "theme:".toList ct)
  brand_consistency :=
    anyDart c (fun ct => containsSub "Color(0x".toList ct && decide (3 ≤ countColor ct))

/-- `IndustrialUXValidator._validate_responsive_design`. -/
def evalResponsive (c : Corpus) : ResponsiveChecks where
  screen_size_adaptation := anyDart c (fun ct => containsSub "MediaQuery.of(context).size".toList ct)
  orientation_handling :=
    anyDart c (fun ct => containsSub "Orientation.".toList ct || containsSub "orientation:".toList ct)
  safe_area_usage := anyDart c (fun ct => containsSub "SafeArea(".toList ct)
  flexible_layouts :=
    anyDart c (fun ct => containsSub "Flexible(".toList ct || containsSub "Expanded(".toList ct ||
      containsSub "Wrap(".toList ct)
  breakpoint_handling :=
    anyDart c (fun ct => containsSub "LayoutBuilder".toList ct || containsSub "constraints".toList ct)

/-- `IndustrialUXValidator._validate_user_flows`. -/
def evalFlows (c : Corpus) : FlowChecks where
  onboarding_flow :=
    anyDart c (fun ct => containsSub "onboard".toList (lower ct) || containsSub "intro".toList (lower ct))
  authentication_flow := !(rglob "*auth*.dart" c).isEmpty
  error_handling_flow :=
    anyDart c (fun ct => containsSub "try \x7b".toList ct && containsSub "catch".toList ct)
  navigation_flow :=
    anyDart c (fun ct => containsSub "Navigator.".toList ct || containsSub "GoRouter".toList ct)
  feedback_flow :=
    anyDart c (fun ct => containsSub "SnackBar".toList ct || containsSub "showDialog".toList ct ||
      containsSub "ScaffoldMessenger".toList ct)

/-- All category check outcomes of one run. -/
structure AllChecks where
  material : MaterialChecks
  accessibility : AccessibilityChecks
  performance : PerformanceChecks
  animations : AnimationChecks
  theming : ThemingChecks
  responsive : ResponsiveChecks
  flows : FlowChecks
deriving DecidableEq, Repr

/-- The seven category evaluations of `validate_complete_ux`, in call
order. -/
def evalAll (c : Corpus) : AllChecks where
  material := evalMaterial c
  accessibility := evalAccessibility c
  performance := evalPerformance c
  animations := evalAnimations c
  theming := evalTheming c
  responsive := evalResponsive c
  flows := evalFlows c

/-! ## Scoring, grading, recommendations -/

/-- `self.max_score` set in `IndustrialUXValidator.__init__`. -/
def maxScore : Nat := 100

/-- The accumulated `results` dict entry `ux_score`: each `_validate_*`
method adds `sum(checks.values())` times its per-check weight (4, 3, 3, 2,
3, 2, 3). -/
def uxScoreOf (s : AllChecks) : Nat :=
  s.material.count * 4 + s.accessibility.count * 3 + s.performance.count * 3 +
    s.animations.count * 2 + s.theming.count * 3 + s.responsive.count * 2 +
    s.flows.count * 3

/-- `final_score = min(results.ux_score, self.max_score)`. -/
def finalScoreOf (s : AllChecks) : Nat := min (uxScoreOf s) maxScore

/-- The grade of `_calculate_ux_score`, a cascade of threshold tests from
90 downwards on the percentage.  Since `max_score` is 100, the float
`percentage` equals the integer score exactly at each threshold value, so
the integer model is exact. -/
def gradeOf (p : Nat) : String :=
  if 90 ≤ p then "A+ (Industrial Grade)"
  else if 80 ≤ p then "A (Professional Grade)"
  else if 70 ≤ p then "B+ (Good Standard)"
  else if 60 ≤ p then "B (Acceptable)"
  else "C (Below Standard)"

/-- The status string paired with each grade threshold. -/
def statusOf (p : Nat) : String :=
  if 90 ≤ p then "🏆 EXCELLENT"
  else if 80 ≤ p then "✅ VERY GOOD"
  else if 70 ≤ p then "👍 GOOD"
  else if 60 ≤ p then "⚠️ NEEDS IMPROVEMENT"
  else "❌ REQUIRES MAJOR WORK"

def recThemeStr : String := "Implement comprehensive Material Design 3 theme"
def recComponentsStr : String := "Create more premium UI components"
def recSemanticStr : String := "Add semantic labels for screen readers"
def recFocusStr : String := "Implement proper focus management"
def recCachingStr : String := "Implement advanced image caching system"
def recLazyStr : String := "Add lazy loading for better performance"

/-- `IndustrialUXValidator._generate_recommendations`: one canned string
per unsatisfied selected check, appended in the fixed source order and
truncated to the first five. -/
def genRecommendations (md : MaterialChecks) (acc : AccessibilityChecks)
    (perf : PerformanceChecks) : List String :=
  ((if md.theme_implementation then [] else [recThemeStr]) ++
   (if md.component_usage then [] else [recComponentsStr]) ++
   (if acc.semantic_labels then [] else [recSemanticStr]) ++
   (if acc.focus_management then [] else [recFocusStr]) ++
   (if perf.image_caching then [] else [recCachingStr]) ++
   (if perf.lazy_loading then [] else [recLazyStr])).take 5

/-- The `summary` dict assembled by `_calculate_ux_score`. -/
structure UXSummary where
  final_score : Nat
  max_score : Nat
  percentage : Nat
  grade : String
  status : String
  recommendations : List String
deriving DecidableEq, Repr

/-- The `results` dict returned by `validate_complete_ux`. -/
structure UXResults where
  checks : AllChecks
  ux_score : Nat
  summary : UXSummary
deriving DecidableEq, Repr

/-- `IndustrialUXValidator.validate_complete_ux`: run the seven category
validations, then `_calculate_ux_score`. -/
def validateCompleteUX (c : Corpus) : UXResults :=
  let s := evalAll c
  let final := min (uxScoreOf s) maxScore
  { checks := s
    ux_score := uxScoreOf s
    summary :=
      { final_score := final
        max_score := maxScore
        percentage := final
        grade := gradeOf final
        status := statusOf final
        recommendations := genRecommendations s.material s.accessibility s.performance } }

/-- The per-category breakdown score printed by `main`:
`sum(checks.values()) * (max_points // len(checks))` with integer
division. -/
def breakdownScore (satisfied maxPoints nChecks : Nat) : Nat :=
  satisfied * (maxPoints / nChecks)

/-! ## Index access into the 35 checks, for the monotonicity property -/

/-- Check number `i` of a category in dict declaration order. -/
def MaterialChecks.get (m : MaterialChecks) (i : Nat) : Bool :=
  if i = 0 then m.theme_implementation else if i = 1 then m.component_usage
  else if i = 2 then m.color_system else if i = 3 then m.typography
  else m.elevation_shadows

def MaterialChecks.set (m : MaterialChecks) (i : Nat) (v : Bool) : MaterialChecks :=
  if i = 0 then { m with theme_implementation := v }
  else if i = 1 then { m with component_usage := v }
  else if i = 2 then { m with color_system := v }
  else if i = 3 then { m with typography := v }
  else { m with elevation_shadows := v }

def AccessibilityChecks.get (a : AccessibilityChecks) (i : Nat) : Bool :=
  if i = 0 then a.semantic_labels else if i = 1 then a.focus_management
  else if i = 2 then a.color_contrast else if i = 3 then a.text_scaling
  else a.screen_reader_support

def AccessibilityChecks.set (a : AccessibilityChecks) (i : Nat) (v : Bool) : AccessibilityChecks :=
  if i = 0 then { a with semantic_labels := v }
  else if i = 1 then { a with focus_management := v }
  else if i = 2 then { a with color_contrast := v }
  else if i = 3 then { a with text_scaling := v }
  else { a with screen_reader_support := v }

def PerformanceChecks.get (p : PerformanceChecks) (i : Nat) : Bool :=
  if i = 0 then p.image_caching else if i = 1 then p.lazy_loading
  else if i = 2 then p.performance_monitoring else if i = 3 then p.memory_optimization
  else p.smooth_animations

def PerformanceChecks.set (p : PerformanceChecks) (i : Nat) (v : Bool) : PerformanceChecks :=
  if i = 0 then { p with image_caching := v }
  else if i = 1 then { p with lazy_loading := v }
  else if i = 2 then { p with performance_monitoring := v }
  else if i = 3 then { p with memory_optimization := v }
  else { p with smooth_animations := v }

def AnimationChecks.get (a : AnimationChecks) (i : Nat) : Bool :=
  if i = 0 then a.micro_interactions else if i = 1 then a.page_transitions
  else if i = 2 then a.loading_animations else if i = 3 then a.gesture_animations
  else a.hero_animations

def AnimationChecks.set (a : AnimationChecks) (i : Nat) (v : Bool) : AnimationChecks :=
  if i = 0 then { a with micro_interactions := v }
  else if i = 1 then { a with page_transitions := v }
  else if i = 2 then { a with loading_animations := v }
  else if i = 3 then { a with gesture_animations := v }
  else { a with hero_animations := v }

def ThemingChecks.get (t : ThemingChecks) (i : Nat) : Bool :=
  if i = 0 then t.dark_light_theme else if i = 1 then t.consistent_colors
  else if i = 2 then t.custom_fonts else if i = 3 then t.theme_switching
  else t.brand_consistency

def ThemingChecks.set (t : ThemingChecks) (i : Nat) (v : Bool) : ThemingChecks :=
  if i = 0 then { t with dark_light_theme := v }
  else if i = 1 then { t with consistent_colors := v }
  else if i = 2 then { t with custom_fonts := v }
  else if i = 3 then { t with theme_switching := v }
  else { t with brand_consistency := v }

def ResponsiveChecks.get (r : ResponsiveChecks) (i : Nat) : Bool :=
  if i = 0 then r.screen_size_adaptation else if i = 1 then r.orientation_handling
  else if i = 2 then r.safe_area_usage else if i = 3 then r.flexible_layouts
  else r.breakpoint_handling

def ResponsiveChecks.set (r : ResponsiveChecks) (i : Nat) (v : Bool) : ResponsiveChecks :=
  if i = 0 then { r with screen_size_adaptation := v }
  else if i = 1 then { r with orientation_handling := v }
  else if i = 2 then { r with safe_area_usage := v }
  else if i = 3 then { r with flexible_layouts := v }
  else { r with breakpoint_handling := v }

def FlowChecks.get (f : FlowChecks) (i : Nat) : Bool :=
  if i = 0 then f.onboarding_flow else if i = 1 then f.authentication_flow
  else if i = 2 then f.error_handling_flow else if i = 3 then f.navigation_flow
  else f.feedback_flow

def FlowChecks.set (f : FlowChecks) (i : Nat) (v : Bool) : FlowChecks :=
  if i = 0 then { f with onboarding_flow := v }
  else if i = 1 then { f with authentication_flow := v }
  else if i = 2 then { f with error_handling_flow := v }
  else if i = 3 then { f with navigation_flow := v }
  else { f with feedback_flow := v }

/-- Check `i` of category `cat` (categories in validation order). -/
def AllChecks.get (s : AllChecks) (cat i : Nat) : Bool :=
  if cat = 0 then s.material.get i
  else if cat = 1 then s.accessibility.get i
  else if cat = 2 then s.performance.get i
  else if cat = 3 then s.animations.get i
  else if cat = 4 then s.theming.get i
  else if cat = 5 then s.responsive.get i
  else s.flows.get i

def AllChecks.set (s : AllChecks) (cat i : Nat) (v : Bool) : AllChecks :=
  if cat = 0 then { s with material := s.material.set i v }
  else if cat = 1 then { s with accessibility := s.accessibility.set i v }
  else if cat = 2 then { s with performance := s.performance.set i v }
  else if cat = 3 then { s with animations := s.animations.set i v }
  else if cat = 4 then { s with theming := s.theming.set i v }
  else if cat = 5 then { s with responsive := s.responsive.set i v }
  else { s with flows := s.flows.set i v }

/-- The per-check point weight of each category. -/
def categoryWeight (cat : Nat) : Nat :=
  if cat = 0 then 4 else if cat = 1 then 3 else if cat = 2 then 3
  else if cat = 3 then 2 else if cat = 4 then 3 else if cat = 5 then 2
  else 3

/-- The points a category contributes to `ux_score`. -/
def categoryPoints (s : AllChecks) (cat : Nat) : Nat :=
  (if cat = 0 then s.material.count
   else if cat = 1 then s.accessibility.count
   else if cat = 2 then s.performance.count
   else if cat = 3 then s.animations.count
   else if cat = 4 then s.theming.count
   else if cat = 5 then s.responsive.count
   else s.flows.count) * categoryWeight cat

/-! ## The Dart validator (`validate_dart.py`) -/

/-- The kinds of entries the `DartValidator` appends to its error lists. -/
inductive ErrKind where
  | braceMismatch
  | missingSemicolon
  | invalidImportFormat
  | importMissingSemicolon
  | readFailure
  | missingBuildMethod
deriving DecidableEq, Repr

/-- An entry of `syntax_errors`, `import_errors` or `structure_issues`;
entries produced outside a line loop carry no line number. -/
structure Issue where
  file : Chars
  line : Option Nat
  kind : ErrKind
deriving DecidableEq, Repr

/-- An entry of the `warnings` list: a file-name versus class-name
convention mismatch. -/
structure NameWarning where
  file : Chars
  fileName : Chars
  className : Chars
  expected : Chars
deriving DecidableEq, Repr

/-- The brace heuristic of `_check_syntax` for one stripped line: flag when
the open and close brace counts differ by more than one. -/
def braceIssuesOf (file : Chars) (n : Nat) (line : Chars) : List Issue :=
  if countCh '\x7b' line ≠ countCh '\x7d' line then
    if 1 < ((countCh '\x7b' line : Int) - countCh '\x7d' line).natAbs then
      [⟨file, some n, .braceMismatch⟩]
    else []
  else []

/-- The statement-termination heuristic of `_check_syntax` for one
stripped line: the likely-valid guard, then the assignment-shape regex,
the continuation comma, and the control-flow keyword exclusions. -/
def semicolonIssuesOf (file : Chars) (n : Nat) (line : Chars) : List Issue :=
  if (endsWith "\x7d".toList line || endsWith ";".toList line) &&
      containsSub "=".toList line && !startsWith "//".toList line then
    []
  else if searchAssign line && !endsWith ",".toList line &&
      !(containsSub "if".toList line || containsSub "for".toList line ||
        containsSub "while".toList line || containsSub "switch".toList line ||
        containsSub "try".toList line || containsSub "=>".toList line) then
    [⟨file, some n, .missingSemicolon⟩]
  else []

/-- `_check_syntax` on one raw line: strip, skip blank and comment lines,
then run the brace and termination heuristics in append order. -/
def lineSyntaxIssues (file : Chars) (n : Nat) (raw : Chars) : List Issue :=
  let line := strip raw
  if line.isEmpty || startsWith "//".toList line then []
  else braceIssuesOf file n line ++ semicolonIssuesOf file n line

/-- `_check_imports` on one raw line: only lines starting with `import `
are inspected; the format and the trailing-semicolon checks are
independent. -/
def lineImportIssues (file : Chars) (n : Nat) (raw : Chars) : List Issue :=
  let line := strip raw
  if startsWith "import ".toList line then
    (if !importFormatOk line then [⟨file, some n, .invalidImportFormat⟩] else []) ++
      (if !endsWith ";".toList line then [⟨file, some n, .importMissingSemicolon⟩] else [])
  else []

/-- Issues of a whole file from line `n` on (Python enumerates from 1). -/
def checkSyntaxAux (file : Chars) (n : Nat) : List Chars → List Issue
  | [] => []
  | l :: ls => lineSyntaxIssues file n l ++ checkSyntaxAux file (n + 1) ls

/-- `DartValidator._check_syntax`. -/
def syntaxIssuesOf (file : Chars) (content : Chars) : List Issue :=
  checkSyntaxAux file 1 (splitLines content)

def checkImportsAux (file : Chars) (n : Nat) : List Chars → List Issue
  | [] => []
  | l :: ls => lineImportIssues file n l ++ checkImportsAux file (n + 1) ls

/-- `DartValidator._check_imports`. -/
def checkImports (file : Chars) (content : Chars) : List Issue :=
  checkImportsAux file 1 (splitLines content)

/-- The naming-convention warning of `_check_structure`: exactly one class
declaration whose snake-case form differs from the file stem, unless the
stem ends in `_test`. -/
def structureWarnings (name content : Chars) : List NameWarning :=
  match findClasses content with
  | [cn] =>
    let fileName := stem name
    let expected := camelToSnake cn
    if fileName ≠ expected && !endsWith "_test".toList fileName then
      [⟨name, fileName, cn, expected⟩]
    else []
  | _ => []

/-- The widget-completeness check of `_check_structure`. -/
def structureIssues (name content : Chars) : List Issue :=
  if (containsSub "extends StatelessWidget".toList content ||
      containsSub "extends StatefulWidget".toList content) &&
      !containsSub "Widget build(BuildContext context)".toList content then
    [⟨name, none, .missingBuildMethod⟩]
  else []

/-- The per-file contribution of `_validate_dart_file` to the four result
lists (syntax errors, import errors, structure issues, warnings).  A file
whose read raises is recorded as a single `syntax_errors` entry and skips
all content checks. -/
structure FileIssues where
  syn : List Issue
  imp : List Issue
  str : List Issue
  warn : List NameWarning
deriving DecidableEq, Repr

def validateDartFile (f : FileRec) : FileIssues :=
  if f.readable then
    { syn := syntaxIssuesOf f.name f.content
      imp := checkImports f.name f.content
      str := structureIssues f.name f.content
      warn := structureWarnings f.name f.content }
  else
    { syn := [⟨f.name, none, .readFailure⟩], imp := [], str := [], warn := [] }

/-- The `results` dict of `DartValidator.validate_project`. -/
structure DartResults where
  files_checked : Nat
  syntax_errors : List Issue
  import_errors : List Issue
  structure_issues : List Issue
  warnings : List NameWarning
deriving DecidableEq, Repr

/-- `DartValidator.validate_project`: validate each `*.dart` file of the
corpus in order, appending each file's entries to the shared lists. -/
def validateProject (c : Corpus) : DartResults :=
  let files := rglob "*.dart" c
  { files_checked := files.length
    syntax_errors := (files.map (fun f => (validateDartFile f).syn)).flatten
    import_errors := (files.map (fun f => (validateDartFile f).imp)).flatten
    structure_issues := (files.map (fun f => (validateDartFile f).str)).flatten
    warnings := (files.map (fun f => (validateDartFile f).warn)).flatten }

/-- The `summary` dict of `_generate_summary`. -/
structure DartSummary where
  total_files : Nat
  total_issues : Nat
  total_warnings : Nat
  syntax_error_count : Nat
  import_error_count : Nat
  structure_issue_count : Nat
  status : String
deriving DecidableEq, Repr

/-- `DartValidator._generate_summary`. -/
def genSummary (r : DartResults) : DartSummary :=
  let total := r.syntax_errors.length + r.import_errors.length + r.structure_issues.length
  { total_files := r.files_checked
    total_issues := total
    total_warnings := r.warnings.length
    syntax_error_count := r.syntax_errors.length
    import_error_count := r.import_errors.length
    structure_issue_count := r.structure_issues.length
    status := if total = 0 then "PASS" else "ISSUES_FOUND" }

/-- The process exit code chosen at the end of `main`:
`sys.exit(0 if summary.total_issues == 0 else 1)`. -/
def dartExitCode (c : Corpus) : Nat :=
  if (genSummary (validateProject c)).total_issues = 0 then 0 else 1

/-! ## Concrete corpora used by the closed instances below -/

/-- A readable scanned file. -/
def mkFile (n ct : String) : FileRec := ⟨n.toList, ct.toList, true⟩

/-- A Dart file exercising every content-based check of the UX validator. -/
def mainContent : String :=
  "semanticsLabel FocusNode MediaQuery.of(context).size ExcludeSemantics FutureBuilder dispose() initState() AnimationController onTap PageRouteBuilder CircularProgressIndicator GestureDetector Hero( elevation: Theme.of(context) ThemeMode Color(0x12345678) Color(0x9ABCDEF0) Color(0xAABBCCDD) Orientation. SafeArea( Flexible( LayoutBuilder onboard try \x7b catch Navigator. SnackBar"

/-- A corpus satisfying all 35 checks of the UX validator. -/
def demoCorpus : Corpus :=
  [ mkFile "app_theme.dart" "ThemeData.dark",
    mkFile "app_color.dart" "",
    mkFile "app_typography.dart" "",
    mkFile "premium_button.dart" "",
    mkFile "premium_card.dart" "",
    mkFile "premium_nav.dart" "",
    mkFile "image_cache.dart" "",
    mkFile "performance_monitor.dart" "",
    mkFile "auth_screen.dart" "",
    mkFile "pubspec.yaml" "fonts:",
    mkFile "main.dart" mainContent ]

/-- All 35 checks satisfied. -/
def allTrueChecks : AllChecks :=
  ⟨⟨true, true, true, true, true⟩, ⟨true, true, true, true, true⟩,
   ⟨true, true, true, true, true⟩, ⟨true, true, true, true, true⟩,
   ⟨true, true, true, true, true⟩, ⟨true, true, true, true, true⟩,
   ⟨true, true, true, true, true⟩⟩

/-- All 35 checks unsatisfied. -/
def allFalseChecks : AllChecks :=
  ⟨⟨false, false, false, false, false⟩, ⟨false, false, false, false, false⟩,
   ⟨false, false, false, false, false⟩, ⟨false, false, false, false, false⟩,
   ⟨false, false, false, false, false⟩, ⟨false, false, false, false, false⟩,
   ⟨false, false, false, false, false⟩⟩

/-- An unreadable Dart file. -/
def unreadableDart : FileRec := ⟨"a.dart".toList, [], false⟩

/-- An unreadable file matching none of the filename patterns. -/
def unreadableTxt : FileRec := ⟨"readme.txt".toList, [], false⟩

/-- A readable Dart file whose single class violates the naming
convention, so it yields exactly one warning and no errors. -/
def fooBarFile : FileRec := ⟨"foo.dart".toList, "class Bar".toList, true⟩

/-! ## Helper lemmas -/

/-- Five boolean indicator values sum to at most five. -/
theorem bool5_le (a b c d e : Bool) :
    a.toNat + b.toNat + c.toNat + d.toNat + e.toNat ≤ 5 := by
  cases a <;> cases b <;> cases c <;> cases d <;> cases e <;> decide

/-- Appending a file that a glob pattern rejects leaves `rglob` unchanged. -/
theorem rglob_append_no (pat : String) (c : Corpus) (f : FileRec)
    (h : globMatch pat.toList f.name = false) :
    rglob pat (c ++ [f]) = rglob pat c := by
  simp [rglob, List.filter_append]
  exact h

/-- Appending a non-Dart file leaves every content scan unchanged. -/
theorem anyDart_append_no (c : Corpus) (f : FileRec)
    (h : globMatch "*.dart".toList f.name = false) (p : Chars → Bool) :
    anyDart (c ++ [f]) p = anyDart c p := by
  simp [anyDart, dartsOf, rglob_append_no _ _ _ h]

/-- `find?` ignores an appended element the predicate rejects. -/
theorem find?_append_no {α : Type} (p : α → Bool) (l : List α) (x : α)
    (h : p x = false) : (l ++ [x]).find? p = l.find? p := by
  induction l with
  | nil => simp [List.find?, h]
  | cons a l ih => cases ha : p a <;> simp [List.find?_cons, ha, ih]

/-- Appending a file invisible to every filename pattern and distinct from
`pubspec.yaml` changes no check outcome. -/
theorem evalAll_append_invisible (c : Corpus) (f : FileRec)
    (hd : globMatch "*.dart".toList f.name = false)
    (h1 : globMatch "*theme*.dart".toList f.name = false)
    (h2 : globMatch "*color*.dart".toList f.name = false)
    (h3 : globMatch "*typography*.dart".toList f.name = false)
    (h4 : globMatch "premium_*.dart".toList f.name = false)
    (h5 : globMatch "*cache*.dart".toList f.name = false)
    (h6 : globMatch "*performance*.dart".toList f.name = false)
    (h7 : globMatch "*auth*.dart".toList f.name = false)
    (hp : f.name ≠ "pubspec.yaml".toList) :
    evalAll (c ++ [f]) = evalAll c := by
  have hAny := anyDart_append_no c f hd
  have hTheme := rglob_append_no "*theme*.dart" c f h1
  have hColor := rglob_append_no "*color*.dart" c f h2
  have hTypo := rglob_append_no "*typography*.dart" c f h3
  have hPrem := rglob_append_no "premium_*.dart" c f h4
  have hCache := rglob_append_no "*cache*.dart" c f h5
  have hPerf := rglob_append_no "*performance*.dart" c f h6
  have hAuth := rglob_append_no "*auth*.dart" c f h7
  have hFind : (c ++ [f]).find? (fun g => g.name = "pubspec.yaml".toList) =
      c.find? (fun g => g.name = "pubspec.yaml".toList) :=
    find?_append_no _ c f (by simp; exact hp)
  simp only [evalAll, evalMaterial, evalAccessibility, evalPerformance, evalAnimations,
    evalTheming, evalResponsive, evalFlows, hAny, hTheme, hColor, hTypo, hPrem, hCache,
    hPerf, hAuth, hFind]

/-- Every issue produced for one source line carries that line number. -/
theorem mem_lineSyntaxIssues_line {file : Chars} {n : Nat} {raw : Chars} {e : Issue}
    (he : e ∈ lineSyntaxIssues file n raw) : e.line = some n := by
  simp only [lineSyntaxIssues, braceIssuesOf, semicolonIssuesOf] at he
  split at he
  · simp at he
  · rcases List.mem_append.mp he with h | h <;>
      (repeat' split at h) <;> simp_all

/-- Issues produced from line `n` on carry line numbers of at least `n`. -/
theorem mem_checkSyntaxAux_line_ge {file : Chars} {n : Nat} {ls : List Chars} {e : Issue}
    (he : e ∈ checkSyntaxAux file n ls) : ∃ m, e.line = some m ∧ n ≤ m := by
  induction ls generalizing n with
  | nil => simp [checkSyntaxAux] at he
  | cons l ls ih =>
    rcases List.mem_append.mp he with h | h
    · exact ⟨n, mem_lineSyntaxIssues_line h, le_refl n⟩
    · obtain ⟨m, hm, hge⟩ := ih h
      exact ⟨m, hm, by omega⟩

/-- Filtering the syntax issues by a line number isolates exactly the
issues of that source line. -/
theorem filter_checkSyntaxAux (file : Chars) (ls : List Chars) (n i : Nat) (l : Chars)
    (hget : ls.get? i = some l) :
    (checkSyntaxAux file n ls).filter (fun e => e.line = some (n + i)) =
      lineSyntaxIssues file (n + i) l := by
  induction ls generalizing n i with
  | nil => simp at hget
  | cons a ls ih =>
    cases i with
    | zero =>
      simp only [List.get?] at hget
      injection hget with h
      subst h
      simp only [checkSyntaxAux, List.filter_append, Nat.add_zero]
      have hfirst : (lineSyntaxIssues file n a).filter (fun e => e.line = some n) =
          lineSyntaxIssues file n a := by
        apply List.filter_eq_self.mpr
        intro e he
        simp [mem_lineSyntaxIssues_line he]
      have hrest : (checkSyntaxAux file (n + 1) ls).filter (fun e => e.line = some n) = [] := by
        apply List.filter_eq_nil_iff.mpr
        intro e he
        obtain ⟨m, hm, hge⟩ := mem_checkSyntaxAux_line_ge he
        simp only [hm, Option.some.injEq, decide_eq_true_eq]
        omega
      rw [hfirst, hrest, List.append_nil]
    | succ i =>
      simp only [List.get?] at hget
      simp only [checkSyntaxAux, List.filter_append]
      have hfirst : (lineSyntaxIssues file n a).filter (fun e => e.line = some (n + (i + 1))) =
          [] := by
        apply List.filter_eq_nil_iff.mpr
        intro e he
        simp only [mem_lineSyntaxIssues_line he, Option.some.injEq, decide_eq_true_eq]
        omega
      have hrest := ih (n + 1) i hget
      rw [hfirst, List.nil_append, show n + (i + 1) = n + 1 + i by omega, hrest]

/-! ## The claims -/

/-- The per-category points of one run, expressed through the evaluated
check structures. -/
theorem categoryPoints_eval (c : Corpus) :
    categoryPoints (evalAll c) 0 = (evalMaterial c).count * 4 ∧
    categoryPoints (evalAll c) 1 = (evalAccessibility c).count * 3 ∧
    categoryPoints (evalAll c) 2 = (evalPerformance c).count * 3 ∧
    categoryPoints (evalAll c) 3 = (evalAnimations c).count * 2 ∧
    categoryPoints (evalAll c) 4 = (evalTheming c).count * 3 ∧
    categoryPoints (evalAll c) 5 = (evalResponsive c).count * 2 ∧
    categoryPoints (evalAll c) 6 = (evalFlows c).count * 3 := by
  refine ⟨?_, ?_, ?_, ?_, ?_, ?_, ?_⟩ <;> rfl

/-- Claim C1: every category awards `maxPoints × satisfiedCount / totalCount`
points with `totalCount = 5`; because each of the seven maxima (20, 15, 15,
10, 15, 10, 15) is divisible by 5, the per-check weight (4, 3, 3, 2, 3, 2,
3) realises the exact fractional formula, and the report breakdown's
integer division `max_points // number_of_checks` computes the same value.
Stated both over `Nat` (with truncating division, which is here exact) and
over `ℚ` (the exact fraction). -/
theorem claim_C1_category_score_formula (c : Corpus) :
    (categoryPoints (evalAll c) 0 = 20 * (evalMaterial c).count / 5 ∧
      ((categoryPoints (evalAll c) 0 : ℚ) = 20 * (evalMaterial c).count / 5) ∧
      breakdownScore (evalMaterial c).count 20 5 = categoryPoints (evalAll c) 0 ∧
      categoryPoints (evalAll c) 0 = (evalMaterial c).count * 4) ∧
    (categoryPoints (evalAll c) 1 = 15 * (evalAccessibility c).count / 5 ∧
      ((categoryPoints (evalAll c) 1 : ℚ) = 15 * (evalAccessibility c).count / 5) ∧
      breakdownScore (evalAccessibility c).count 15 5 = categoryPoints (evalAll c) 1) ∧
    (categoryPoints (evalAll c) 2 = 15 * (evalPerformance c).count / 5 ∧
      ((categoryPoints (evalAll c) 2 : ℚ) = 15 * (evalPerformance c).count / 5) ∧
      breakdownScore (evalPerformance c).count 15 5 = categoryPoints (evalAll c) 2) ∧
    (categoryPoints (evalAll c) 3 = 10 * (evalAnimations c).count / 5 ∧
      ((categoryPoints (evalAll c) 3 : ℚ) = 10 * (evalAnimations c).count / 5) ∧
      breakdownScore (evalAnimations c).count 10 5 = categoryPoints (evalAll c) 3) ∧
    (categoryPoints (evalAll c) 4 = 15 * (evalTheming c).count / 5 ∧
      ((categoryPoints (evalAll c) 4 : ℚ) = 15 * (evalTheming c).count / 5) ∧
      breakdownScore (evalTheming c).count 15 5 = categoryPoints (evalAll c) 4) ∧
    (categoryPoints (evalAll c) 5 = 10 * (evalResponsive c).count / 5 ∧
      ((categoryPoints (evalAll c) 5 : ℚ) = 10 * (evalResponsive c).count / 5) ∧
      breakdownScore (evalResponsive c).count 10 5 = categoryPoints (evalAll c) 5) ∧
    (categoryPoints (evalAll c) 6 = 15 * (evalFlows c).count / 5 ∧
      ((categoryPoints (evalAll c) 6 : ℚ) = 15 * (evalFlows c).count / 5) ∧
      breakdownScore (evalFlows c).count 15 5 = categoryPoints (evalAll c) 6) := by
  obtain ⟨h0, h1, h2, h3, h4, h5, h6⟩ := categoryPoints_eval c
  rw [h0, h1, h2, h3, h4, h5, h6]
  refine ⟨⟨?_, ?_, ?_, ?_⟩, ⟨?_, ?_, ?_⟩, ⟨?_, ?_, ?_⟩, ⟨?_, ?_, ?_⟩, ⟨?_, ?_, ?_⟩,
    ⟨?_, ?_, ?_⟩, ⟨?_, ?_, ?_⟩⟩ <;>
    first
      | omega
      | (unfold breakdownScore; omega)
      | (push_cast; field_simp; ring)

/-- Claim C2: every category score lies between 0 and its maximum, the
seven maxima sum to the fixed overall maximum 100, and the reported final
score is the clamp `min(ux_score, max_score)`, hence never exceeds 100. -/
theorem claim_C2_score_bounds (c : Corpus) :
    (categoryPoints (evalAll c) 0 ≤ 20 ∧ categoryPoints (evalAll c) 1 ≤ 15 ∧
      categoryPoints (evalAll c) 2 ≤ 15 ∧ categoryPoints (evalAll c) 3 ≤ 10 ∧
      categoryPoints (evalAll c) 4 ≤ 15 ∧ categoryPoints (evalAll c) 5 ≤ 10 ∧
      categoryPoints (evalAll c) 6 ≤ 15) ∧
    20 + 15 + 15 + 10 + 15 + 10 + 15 = maxScore ∧
    uxScoreOf (evalAll c) =
      categoryPoints (evalAll c) 0 + categoryPoints (evalAll c) 1 +
        categoryPoints (evalAll c) 2 + categoryPoints (evalAll c) 3 +
        categoryPoints (evalAll c) 4 + categoryPoints (evalAll c) 5 +
        categoryPoints (evalAll c) 6 ∧
    (validateCompleteUX c).summary.final_score = min (uxScoreOf (evalAll c)) maxScore ∧
    (validateCompleteUX c).summary.final_score ≤ maxScore := by
  have b1 := bool5_le (evalMaterial c).theme_implementation (evalMaterial c).component_usage
    (evalMaterial c).color_system (evalMaterial c).typography (evalMaterial c).elevation_shadows
  have b2 := bool5_le (evalAccessibility c).semantic_labels (evalAccessibility c).focus_management
    (evalAccessibility c).color_contrast (evalAccessibility c).text_scaling
    (evalAccessibility c).screen_reader_support
  have b3 := bool5_le (evalPerformance c).image_caching (evalPerformance c).lazy_loading
    (evalPerformance c).performance_monitoring (evalPerformance c).memory_optimization
    (evalPerformance c).smooth_animations
  have b4 := bool5_le (evalAnimations c).micro_interactions (evalAnimations c).page_transitions
    (evalAnimations c).loading_animations (evalAnimations c).gesture_animations
    (evalAnimations c).hero_animations
  have b5 := bool5_le (evalTheming c).dark_light_theme (evalTheming c).consistent_colors
    (evalTheming c).custom_fonts (evalTheming c).theme_switching (evalTheming c).brand_consistency
  have b6 := bool5_le (evalResponsive c).screen_size_adaptation
    (evalResponsive c).orientation_handling (evalResponsive c).safe_area_usage
    (evalResponsive c).flexible_layouts (evalResponsive c).breakpoint_handling
  have b7 := bool5_le (evalFlows c).onboarding_flow (evalFlows c).authentication_flow
    (evalFlows c).error_handling_flow (evalFlows c).navigation_flow (evalFlows c).feedback_flow
  simp only [categoryPoints, categoryWeight, evalAll, validateCompleteUX, uxScoreOf, maxScore,
    MaterialChecks.count, AccessibilityChecks.count, PerformanceChecks.count,
    AnimationChecks.count, ThemingChecks.count, ResponsiveChecks.count, FlowChecks.count] at *
  norm_num
  omega

/-- Claim C3: the reported grade and status are the threshold-table lookup
of the percentage, and on the percentage scale the first threshold met from
90 downwards wins: at least 90 gives A+ (Industrial Grade), at least 80
gives A (Professional Grade), at least 70 gives B+ (Good Standard), at
least 60 gives B (Acceptable), and anything lower gives C (Below
Standard). -/
theorem claim_C3_grade_thresholds :
    (∀ c : Corpus,
      (validateCompleteUX c).summary.grade = gradeOf ((validateCompleteUX c).summary.percentage) ∧
      (validateCompleteUX c).summary.status =
        statusOf ((validateCompleteUX c).summary.percentage)) ∧
    (∀ p : Nat,
      (90 ≤ p → gradeOf p = "A+ (Industrial Grade)" ∧ statusOf p = "🏆 EXCELLENT") ∧
      (80 ≤ p → p < 90 → gradeOf p = "A (Professional Grade)" ∧ statusOf p = "✅ VERY GOOD") ∧
      (70 ≤ p → p < 80 → gradeOf p = "B+ (Good Standard)" ∧ statusOf p = "👍 GOOD") ∧
      (60 ≤ p → p < 70 → gradeOf p = "B (Acceptable)" ∧ statusOf p = "⚠️ NEEDS IMPROVEMENT") ∧
      (p < 60 → gradeOf p = "C (Below Standard)" ∧ statusOf p = "❌ REQUIRES MAJOR WORK")) := by
  constructor
  · intro c
    exact ⟨rfl, rfl⟩
  · intro p
    refine ⟨fun h => ?_, fun h h' => ?_, fun h h' => ?_, fun h h' => ?_, fun h => ?_⟩
    · simp [gradeOf, statusOf, h]
    · simp [gradeOf, statusOf, h, show ¬(90 ≤ p) by omega]
    · simp [gradeOf, statusOf, h, show ¬(90 ≤ p) by omega, show ¬(80 ≤ p) by omega]
    · simp [gradeOf, statusOf, h, show ¬(90 ≤ p) by omega, show ¬(80 ≤ p) by omega,
        show ¬(70 ≤ p) by omega]
    · simp [gradeOf, statusOf, show ¬(90 ≤ p) by omega, show ¬(80 ≤ p) by omega,
        show ¬(70 ≤ p) by omega, show ¬(60 ≤ p) by omega]

/-- Witness for claim C3: one concrete percentage per threshold band, and
one whole-pipeline instance. -/
theorem claim_C3_witness :
    gradeOf 95 = "A+ (Industrial Grade)" ∧ gradeOf 85 = "A (Professional Grade)" ∧
    gradeOf 75 = "B+ (Good Standard)" ∧ gradeOf 65 = "B (Acceptable)" ∧
    gradeOf 42 = "C (Below Standard)" ∧
    (validateCompleteUX []).summary.grade =
      gradeOf ((validateCompleteUX []).summary.percentage) := by
  refine ⟨((claim_C3_grade_thresholds.2 95).1 (by omega)).1,
    ((claim_C3_grade_thresholds.2 85).2.1 (by omega) (by omega)).1,
    ((claim_C3_grade_thresholds.2 75).2.2.1 (by omega) (by omega)).1,
    ((claim_C3_grade_thresholds.2 65).2.2.2.1 (by omega) (by omega)).1,
    ((claim_C3_grade_thresholds.2 42).2.2.2.2 (by omega)).1,
    (claim_C3_grade_thresholds.1 []).1⟩

/-- Claim C5: if every check of every category is satisfied on a corpus,
the final score is the overall maximum 100 and the grade is the top label. -/
theorem claim_C5_perfect_score (c : Corpus) (h : evalAll c = allTrueChecks) :
    (validateCompleteUX c).summary.final_score = maxScore ∧ maxScore = 100 ∧
      (validateCompleteUX c).summary.grade = "A+ (Industrial Grade)" := by
  have h100 : uxScoreOf (evalAll c) = 100 := by rw [h]; rfl
  refine ⟨?_, rfl, ?_⟩
  · show min (uxScoreOf (evalAll c)) maxScore = maxScore
    rw [h100]
    rfl
  · show gradeOf (min (uxScoreOf (evalAll c)) maxScore) = "A+ (Industrial Grade)"
    rw [h100]
    rfl

set_option maxRecDepth 8000 in
/-- Witness for claim C5: a concrete corpus satisfying all 35 checks. -/
theorem claim_C5_witness :
    evalAll demoCorpus = allTrueChecks ∧
      ((validateCompleteUX demoCorpus).summary.final_score = maxScore ∧ maxScore = 100 ∧
        (validateCompleteUX demoCorpus).summary.grade = "A+ (Industrial Grade)") := by
  have h : evalAll demoCorpus = allTrueChecks := by decide
  exact ⟨h, claim_C5_perfect_score demoCorpus h⟩

set_option maxHeartbeats 3200000 in
/-- Claim C8: flipping one previously unsatisfied check to satisfied,
holding all other checks fixed, adds exactly the fixed per-check weight of
its category to that category's points and never decreases the final
score. -/
theorem claim_C8_monotonicity (s : AllChecks) (cat i : Nat) (hcat : cat < 7) (hi : i < 5)
    (h : s.get cat i = false) :
    categoryPoints (s.set cat i true) cat = categoryPoints s cat + categoryWeight cat ∧
    categoryPoints s cat ≤ categoryPoints (s.set cat i true) cat ∧
    finalScoreOf s ≤ finalScoreOf (s.set cat i true) := by
  obtain ⟨⟨m1, m2, m3, m4, m5⟩, ⟨a1, a2, a3, a4, a5⟩, ⟨p1, p2, p3, p4, p5⟩,
    ⟨n1, n2, n3, n4, n5⟩, ⟨t1, t2, t3, t4, t5⟩, ⟨r1, r2, r3, r4, r5⟩,
    ⟨f1, f2, f3, f4, f5⟩⟩ := s
  interval_cases cat <;> interval_cases i <;>
    (simp [AllChecks.get, MaterialChecks.get, AccessibilityChecks.get,
       PerformanceChecks.get, AnimationChecks.get, ThemingChecks.get, ResponsiveChecks.get,
       FlowChecks.get] at h;
     subst h;
     simp [AllChecks.set, MaterialChecks.set, AccessibilityChecks.set,
       PerformanceChecks.set, AnimationChecks.set, ThemingChecks.set, ResponsiveChecks.set,
       FlowChecks.set, categoryPoints, categoryWeight, finalScoreOf, uxScoreOf, maxScore,
       MaterialChecks.count, AccessibilityChecks.count, PerformanceChecks.count,
       AnimationChecks.count, ThemingChecks.count, ResponsiveChecks.count,
       FlowChecks.count];
     omega)

/-- Witness for claim C8: flipping the first Material Design check from the
all-unsatisfied state. -/
theorem claim_C8_witness :
    categoryPoints (allFalseChecks.set 0 0 true) 0 =
      categoryPoints allFalseChecks 0 + categoryWeight 0 ∧
    finalScoreOf allFalseChecks ≤ finalScoreOf (allFalseChecks.set 0 0 true) := by
  have h := claim_C8_monotonicity allFalseChecks 0 0 (by omega) (by omega) (by decide)
  exact ⟨h.1, h.2.2⟩

/-- Claim C7: the core analysis pipeline is deterministic — on equal corpus
snapshots, `DartValidator.validate_project` and
`IndustrialUXValidator.validate_complete_ux` return equal results (both are
pure functions of the snapshot; the repository's randomness lives only in
the excluded simulator script). -/
theorem claim_C7_determinism (c₁ c₂ : Corpus) (h : c₁ = c₂) :
    validateProject c₁ = validateProject c₂ ∧
      validateCompleteUX c₁ = validateCompleteUX c₂ := by
  subst h
  exact ⟨rfl, rfl⟩

/-- Witness for claim C7 at a concrete snapshot. -/
theorem claim_C7_witness :
    validateProject demoCorpus = validateProject demoCorpus ∧
      validateCompleteUX demoCorpus = validateCompleteUX demoCorpus :=
  claim_C7_determinism demoCorpus demoCorpus rfl

/-- Claim C9: the recommendation list is the concatenation, in the fixed
source order (two Material Design checks, two accessibility checks, two
performance checks), of one static remediation string per unsatisfied
selected check, truncated to at most five entries, and it is a
deterministic function of the unsatisfied-check outcomes. -/
theorem claim_C9_recommendations (c : Corpus) :
    (validateCompleteUX c).summary.recommendations =
      ((if (evalMaterial c).theme_implementation then [] else [recThemeStr]) ++
       (if (evalMaterial c).component_usage then [] else [recComponentsStr]) ++
       (if (evalAccessibility c).semantic_labels then [] else [recSemanticStr]) ++
       (if (evalAccessibility c).focus_management then [] else [recFocusStr]) ++
       (if (evalPerformance c).image_caching then [] else [recCachingStr]) ++
       (if (evalPerformance c).lazy_loading then [] else [recLazyStr])).take 5 ∧
    (validateCompleteUX c).summary.recommendations.length ≤ 5 ∧
    (∀ c' : Corpus, evalMaterial c = evalMaterial c' →
      evalAccessibility c = evalAccessibility c' →
      evalPerformance c = evalPerformance c' →
      (validateCompleteUX c).summary.recommendations =
        (validateCompleteUX c').summary.recommendations) := by
  have hdef : ∀ d : Corpus, (validateCompleteUX d).summary.recommendations =
      genRecommendations (evalMaterial d) (evalAccessibility d) (evalPerformance d) :=
    fun d => rfl
  refine ⟨?_, ?_, ?_⟩
  · rw [hdef]
    rfl
  · rw [hdef]
    unfold genRecommendations
    exact le_trans (by simp [List.length_take]) (le_refl 5)
  · intro c' h1 h2 h3
    rw [hdef, hdef, h1, h2, h3]

/-- Witness for claim C9: the truncation bound on the empty corpus, and
equal recommendations on two distinct corpora with equal check outcomes. -/
theorem claim_C9_witness :
    (validateCompleteUX []).summary.recommendations.length ≤ 5 ∧
    (validateCompleteUX []).summary.recommendations =
      (validateCompleteUX [⟨"readme.txt".toList, [], true⟩]).summary.recommendations :=
  ⟨(claim_C9_recommendations []).2.1,
    (claim_C9_recommendations []).2.2 [⟨"readme.txt".toList, [], true⟩]
      (by decide) (by decide) (by decide)⟩

/-- Claim C10: the Dart validator summary status is PASS exactly when the
combined count of syntax errors, import errors and structure issues is
zero, the exit code is 0 in exactly the same case, warnings are counted
separately, and corpora with identical error lists get identical status
and exit codes regardless of their naming-convention warnings. -/
theorem claim_C10_status_exit (c : Corpus) :
    ((genSummary (validateProject c)).status = "PASS" ↔
      (validateProject c).syntax_errors.length + (validateProject c).import_errors.length +
        (validateProject c).structure_issues.length = 0) ∧
    (dartExitCode c = 0 ↔ (genSummary (validateProject c)).total_issues = 0) ∧
    (genSummary (validateProject c)).total_issues =
      (validateProject c).syntax_errors.length + (validateProject c).import_errors.length +
        (validateProject c).structure_issues.length ∧
    (genSummary (validateProject c)).total_warnings = (validateProject c).warnings.length ∧
    (∀ c' : Corpus,
      (validateProject c').syntax_errors = (validateProject c).syntax_errors →
      (validateProject c').import_errors = (validateProject c).import_errors →
      (validateProject c').structure_issues = (validateProject c).structure_issues →
      (genSummary (validateProject c')).status = (genSummary (validateProject c)).status ∧
        dartExitCode c' = dartExitCode c) := by
  refine ⟨?_, ?_, rfl, rfl, ?_⟩
  · unfold genSummary
    by_cases h : (validateProject c).syntax_errors.length +
        (validateProject c).import_errors.length +
        (validateProject c).structure_issues.length = 0
    · simp [h]
    · simp only [h, if_neg h]
      constructor
      · intro hs
        exact absurd hs (by decide)
      · intro hz
        exact hz.elim
  · unfold dartExitCode genSummary
    by_cases h : (validateProject c).syntax_errors.length +
        (validateProject c).import_errors.length +
        (validateProject c).structure_issues.length = 0
    · simp [h]
    · simp [h]
  · intro c' h1 h2 h3
    unfold dartExitCode genSummary
    rw [h1, h2, h3]
    exact ⟨rfl, rfl⟩

/-- Witness for claim C10: the corpus with one naming-convention warning
(a file `foo.dart` declaring `class Bar`) has the same PASS status and
exit code 0 as the empty corpus. -/
theorem claim_C10_witness :
    ((genSummary (validateProject [fooBarFile])).status =
        (genSummary (validateProject [])).status ∧
      dartExitCode [fooBarFile] = dartExitCode []) ∧
    (genSummary (validateProject [fooBarFile])).total_warnings =
      (validateProject [fooBarFile]).warnings.length :=
  ⟨(claim_C10_status_exit []).2.2.2.2 [fooBarFile] (by decide) (by decide) (by decide),
    (claim_C10_status_exit [fooBarFile]).2.2.2.1⟩

/-- Counterexample to claim C4: a corpus whose single Dart file fails to
read produces no warning at all — the failure is recorded as a
`syntax_errors` entry, which even flips the summary status away from PASS;
it is an error, not a warning. -/
theorem claim_C4_counterexample :
    (validateProject [unreadableDart]).warnings = [] ∧
    (validateProject [unreadableDart]).syntax_errors =
      [⟨"a.dart".toList, none, .readFailure⟩] ∧
    (genSummary (validateProject [unreadableDart])).status = "ISSUES_FOUND" := by
  refine ⟨?_, ?_, ?_⟩ <;> decide

/-- Claim C4 as amended: an unreadable file is excluded from all
content-based checks and the run always completes with a result.  In the
Dart validator an unreadable Dart file contributes exactly one additional
`syntax_errors` entry (an error, not a warning) and leaves the other lists
unchanged; in the UX validator an unreadable file that matches none of the
filename patterns and is not `pubspec.yaml` leaves the whole result —
in particular every category score — unchanged, with no additional
warning recorded anywhere. -/
theorem claim_C4_amended (c : Corpus) (f : FileRec) (hr : f.readable = false) :
    (globMatch "*.dart".toList f.name = true →
      (validateProject (c ++ [f])).syntax_errors =
        (validateProject c).syntax_errors ++ [⟨f.name, none, .readFailure⟩] ∧
      (validateProject (c ++ [f])).import_errors = (validateProject c).import_errors ∧
      (validateProject (c ++ [f])).structure_issues = (validateProject c).structure_issues ∧
      (validateProject (c ++ [f])).warnings = (validateProject c).warnings) ∧
    (globMatch "*.dart".toList f.name = false →
      globMatch "*theme*.dart".toList f.name = false →
      globMatch "*color*.dart".toList f.name = false →
      globMatch "*typography*.dart".toList f.name = false →
      globMatch "premium_*.dart".toList f.name = false →
      globMatch "*cache*.dart".toList f.name = false →
      globMatch "*performance*.dart".toList f.name = false →
      globMatch "*auth*.dart".toList f.name = false →
      f.name ≠ "pubspec.yaml".toList →
      validateCompleteUX (c ++ [f]) = validateCompleteUX c) := by
  constructor
  · intro hd
    have hfile : validateDartFile f =
        { syn := [⟨f.name, none, .readFailure⟩], imp := [], str := [], warn := [] } := by
      unfold validateDartFile
      rw [hr]
      rfl
    have hfilter : rglob "*.dart" (c ++ [f]) = rglob "*.dart" c ++ [f] := by
      simp [rglob, List.filter_append]
      exact hd
    refine ⟨?_, ?_, ?_, ?_⟩ <;>
      simp [validateProject, hfilter, hfile]
  · intro hd h1 h2 h3 h4 h5 h6 h7 hp
    unfold validateCompleteUX
    rw [evalAll_append_invisible c f hd h1 h2 h3 h4 h5 h6 h7 hp]

/-- Witness for claim C4 as amended: an unreadable `a.dart` appended to the
empty corpus yields exactly the read-failure error entry, and an
unreadable `readme.txt` leaves the UX result unchanged. -/
theorem claim_C4_witness :
    ((validateProject ([] ++ [unreadableDart])).syntax_errors =
        (validateProject []).syntax_errors ++ [⟨unreadableDart.name, none, .readFailure⟩] ∧
      (validateProject ([] ++ [unreadableDart])).import_errors =
        (validateProject []).import_errors ∧
      (validateProject ([] ++ [unreadableDart])).structure_issues =
        (validateProject []).structure_issues ∧
      (validateProject ([] ++ [unreadableDart])).warnings = (validateProject []).warnings) ∧
    validateCompleteUX ([] ++ [unreadableTxt]) = validateCompleteUX [] :=
  ⟨(claim_C4_amended [] unreadableDart rfl).1 (by decide),
    (claim_C4_amended [] unreadableTxt rfl).2 (by decide) (by decide) (by decide) (by decide)
      (by decide) (by decide) (by decide) (by decide) (by decide)⟩

/-- On the line `x = compute()` the syntax heuristics fire exactly once:
the braces balance, the likely-valid guard fails (no terminator), the
assignment regex matches, there is no trailing comma and no control-flow
keyword, so the single issue is the missing-semicolon one. -/
theorem lineSyntaxIssues_assign_line (file : Chars) (n : Nat) (raw : Chars)
    (hline : strip raw = "x = compute()".toList) :
    lineSyntaxIssues file n raw = [⟨file, some n, .missingSemicolon⟩] := by
  unfold lineSyntaxIssues
  rw [hline]
  rfl

/-- Claim C6: a file content whose line `i` (1-based: line `i + 1`) strips
to the assignment line `x = compute()` receives from the line-oriented
syntax check exactly one issue attributed to that line number, and it is
the missing-semicolon issue for that file. -/
theorem claim_C6_missing_semicolon (file content : Chars) (i : Nat) (l : Chars)
    (hget : (splitLines content).get? i = some l)
    (hline : strip l = "x = compute()".toList) :
    (syntaxIssuesOf file content).filter (fun e => e.line = some (i + 1)) =
      [⟨file, some (i + 1), .missingSemicolon⟩] := by
  unfold syntaxIssuesOf
  have h := filter_checkSyntaxAux file (splitLines content) 1 i l hget
  rw [show (1 : Nat) + i = i + 1 by omega] at h
  rw [h, lineSyntaxIssues_assign_line file (i + 1) l hline]

/-- Witness for claim C6: the two-line file `y;` then `x = compute()`
yields exactly the one missing-semicolon issue on line 2. -/
theorem claim_C6_witness :
    (syntaxIssuesOf "a.dart".toList "y;\nx = compute()".toList).filter
        (fun e => e.line = some (1 + 1)) =
      [⟨"a.dart".toList, some (1 + 1), .missingSemicolon⟩] :=
  claim_C6_missing_semicolon "a.dart".toList "y;\nx = compute()".toList 1
    ("x = compute()".toList) (by decide) (by decide)

end UXV
